import Mathlib

/-!
Shallow embedding of the vCard property record model: one textual property
line is parsed into a record (type tag, ordered parameter list, typed value)
and serialized back to a canonical text line.  The `Property` core
(splitting, orchestration, serialization) is translated from
`src/vcard/property/mod.rs`; the collaborating modules (`types`,
`parameter`, `values`, the error enum) are not part of the sources, so they
are modelled from the specification, as marked on each definition.
Identity tokens (uuids) are modelled as natural numbers, and the process-wide
fresh-identity generator is modelled by passing the freshly generated token
as an explicit argument.
-/

namespace Vcard

/-- Removes every occurrence of a character from a string, as Rust's
`str::replace(c, "")` does. -/
def removeChar (c : Char) (s : String) : String :=
  ⟨s.data.filter (fun a => a != c)⟩

/-- Step 1 of parsing: strip embedded carriage-return and line-feed
characters, mirroring `str.replace('\r', "").replace('\n', "")`. -/
def stripCRLF (s : String) : String :=
  removeChar '\n' (removeChar '\r' s)

/-- Splits a character list at the first occurrence of `sep`, which is
dropped; `none` when `sep` does not occur.  Mirrors `str::split_once`. -/
def splitOnceChars (sep : Char) : List Char → Option (List Char × List Char)
  | [] => none
  | c :: cs =>
      if c = sep then
        some ([], cs)
      else
        match splitOnceChars sep cs with
        | none => none
        | some (l, r) => some (c :: l, r)

/-- `str::split_once` on strings: splits at the first occurrence of `sep`. -/
def splitOnce (sep : Char) (s : String) : Option (String × String) :=
  match splitOnceChars sep s.data with
  | none => none
  | some (l, r) => some (⟨l⟩, ⟨r⟩)

/-- Splits a character list at every occurrence of `sep`; mirrors
`str::split`, which yields one (possibly empty) segment per gap. -/
def splitAllChars (sep : Char) : List Char → List Char → List (List Char)
  | [], acc => [acc.reverse]
  | c :: cs, acc =>
      if c = sep then
        acc.reverse :: splitAllChars sep cs []
      else
        splitAllChars sep cs (c :: acc)

/-- `str::split` on strings. -/
def splitAll (sep : Char) (s : String) : List String :=
  (splitAllChars sep s.data []).map (fun l => ⟨l⟩)

/-- Joins strings with `";"` between consecutive elements, as Rust's
`Vec::join(";")` does. -/
def joinSemicolon : List String → String
  | [] => ""
  | [x] => x
  | x :: y :: xs => x ++ ";" ++ joinSemicolon (y :: xs)

/-- Uppercases the ASCII letters of a string, for case-insensitive keyword
comparison. -/
def toUpperAscii (s : String) : String :=
  ⟨s.data.map Char.toUpper⟩

/-- Modelled from the spec: the error taxonomy of the missing `VcardError`
enum.  `PropertyMalformedString` (named in the sources) is the no-`:` case;
`UnknownPropertyType` is keyword-resolution failure.  The opaque
parameter/value errors have no specified trigger and the modelled
subsystems below never produce them. -/
inductive VcardError where
  | PropertyMalformedString (line : String)
  | UnknownPropertyType (keyword : String)
deriving DecidableEq

/-- Modelled from the spec: the closed enumeration of property types from
the missing `types` module, one variant per canonical keyword (the variants
are those matched in `TryFrom<(&PropertyType, &str, Option<Uuid>)>`). -/
inductive PropertyType where
  | Adr
  | Anniversary
  | BDay
  | BirthPlace
  | CalAdrUri
  | CalUri
  | Categories
  | ClientPidMap
  | ContactUri
  | DeathDate
  | DeathPlace
  | Email
  | Expertise
  | FbUrl
  | Fn
  | Gender
  | Geo
  | Hobby
  | Impp
  | Interest
  | Key
  | Kind
  | Lang
  | Logo
  | Member
  | NickName
  | Note
  | N
  | OrgDirectory
  | Org
  | Photo
  | ProdId
  | Related
  | Rev
  | Role
  | Sound
  | Source
  | Tel
  | Title
  | Tz
  | Uid
  | Url
  | Version
  | Xml
deriving DecidableEq

/-- Modelled from the spec: canonical keyword constant of the missing
`types` module. -/
def PROPERTY_TYPE_ADR : String := "ADR"

/-- Modelled from the spec: canonical keyword constant. -/
def PROPERTY_TYPE_ANNIVERSARY : String := "ANNIVERSARY"

/-- Modelled from the spec: canonical keyword constant. -/
def PROPERTY_TYPE_BDAY : String := "BDAY"

/-- Modelled from the spec: canonical keyword constant. -/
def PROPERTY_TYPE_BIRTHPLACE : String := "BIRTHPLACE"

/-- Modelled from the spec: canonical keyword constant. -/
def PROPERTY_TYPE_CALADRURI : String := "CALADRURI"

/-- Modelled from the spec: canonical keyword constant. -/
def PROPERTY_TYPE_CALURI : String := "CALURI"

/-- Modelled from the spec: canonical keyword constant. -/
def PROPERTY_TYPE_CATEGORIES : String := "CATEGORIES"

/-- Modelled from the spec: canonical keyword constant. -/
def PROPERTY_TYPE_CLIENTPIDMAP : String := "CLIENTPIDMAP"

/-- Modelled from the spec: canonical keyword constant. -/
def PROPERTY_TYPE_CONTACTURI : String := "CONTACTURI"

/-- Modelled from the spec: canonical keyword constant. -/
def PROPERTY_TYPE_DEATHDATE : String := "DEATHDATE"

/-- Modelled from the spec: canonical keyword constant. -/
def PROPERTY_TYPE_DEATHPLACE : String := "DEATHPLACE"

/-- Modelled from the spec: canonical keyword constant. -/
def PROPERTY_TYPE_EMAIL : String := "EMAIL"

/-- Modelled from the spec: canonical keyword constant. -/
def PROPERTY_TYPE_EXPERTISE : String := "EXPERTISE"

/-- Modelled from the spec: canonical keyword constant. -/
def PROPERTY_TYPE_FBURL : String := "FBURL"

/-- Modelled from the spec: canonical keyword constant. -/
def PROPERTY_TYPE_FN : String := "FN"

/-- Modelled from the spec: canonical keyword constant. -/
def PROPERTY_TYPE_GENDER : String := "GENDER"

/-- Modelled from the spec: canonical keyword constant. -/
def PROPERTY_TYPE_GEO : String := "GEO"

/-- Modelled from the spec: canonical keyword constant. -/
def PROPERTY_TYPE_HOBBY : String := "HOBBY"

/-- Modelled from the spec: canonical keyword constant. -/
def PROPERTY_TYPE_IMPP : String := "IMPP"

/-- Modelled from the spec: canonical keyword constant. -/
def PROPERTY_TYPE_INTEREST : String := "INTEREST"

/-- Modelled from the spec: canonical keyword constant. -/
def PROPERTY_TYPE_KEY : String := "KEY"

/-- Modelled from the spec: canonical keyword constant. -/
def PROPERTY_TYPE_KIND : String := "KIND"

/-- Modelled from the spec: canonical keyword constant. -/
def PROPERTY_TYPE_LANG : String := "LANG"

/-- Modelled from the spec: canonical keyword constant. -/
def PROPERTY_TYPE_LOGO : String := "LOGO"

/-- Modelled from the spec: canonical keyword constant. -/
def PROPERTY_TYPE_MEMBER : String := "MEMBER"

/-- Modelled from the spec: canonical keyword constant. -/
def PROPERTY_TYPE_NICKNAME : String := "NICKNAME"

/-- Modelled from the spec: canonical keyword constant. -/
def PROPERTY_TYPE_NOTE : String := "NOTE"

/-- Modelled from the spec: canonical keyword constant. -/
def PROPERTY_TYPE_N : String := "N"

/-- Modelled from the spec: canonical keyword constant. -/
def PROPERTY_TYPE_ORGDIRECTORY : String := "ORGDIRECTORY"

/-- Modelled from the spec: canonical keyword constant. -/
def PROPERTY_TYPE_ORG : String := "ORG"

/-- Modelled from the spec: canonical keyword constant. -/
def PROPERTY_TYPE_PHOTO : String := "PHOTO"

/-- Modelled from the spec: canonical keyword constant. -/
def PROPERTY_TYPE_PRODID : String := "PRODID"

/-- Modelled from the spec: canonical keyword constant. -/
def PROPERTY_TYPE_RELATED : String := "RELATED"

/-- Modelled from the spec: canonical keyword constant. -/
def PROPERTY_TYPE_REV : String := "REV"

/-- Modelled from the spec: canonical keyword constant. -/
def PROPERTY_TYPE_ROLE : String := "ROLE"

/-- Modelled from the spec: canonical keyword constant. -/
def PROPERTY_TYPE_SOUND : String := "SOUND"

/-- Modelled from the spec: canonical keyword constant. -/
def PROPERTY_TYPE_SOURCE : String := "SOURCE"

/-- Modelled from the spec: canonical keyword constant. -/
def PROPERTY_TYPE_TEL : String := "TEL"

/-- Modelled from the spec: canonical keyword constant. -/
def PROPERTY_TYPE_TITLE : String := "TITLE"

/-- Modelled from the spec: canonical keyword constant. -/
def PROPERTY_TYPE_TZ : String := "TZ"

/-- Modelled from the spec: canonical keyword constant. -/
def PROPERTY_TYPE_UID : String := "UID"

/-- Modelled from the spec: canonical keyword constant. -/
def PROPERTY_TYPE_URL : String := "URL"

/-- Modelled from the spec: canonical keyword constant. -/
def PROPERTY_TYPE_VERSION : String := "VERSION"

/-- Modelled from the spec: canonical keyword constant. -/
def PROPERTY_TYPE_XML : String := "XML"

/-- Modelled from the spec: the one shared table of (type, keyword) pairs
backing both keyword resolution and keyword rendering, so that the
keyword-to-type bijection is structural. -/
def propertyTypeTable : List (PropertyType × String) :=
  [(.Adr, PROPERTY_TYPE_ADR),
   (.Anniversary, PROPERTY_TYPE_ANNIVERSARY),
   (.BDay, PROPERTY_TYPE_BDAY),
   (.BirthPlace, PROPERTY_TYPE_BIRTHPLACE),
   (.CalAdrUri, PROPERTY_TYPE_CALADRURI),
   (.CalUri, PROPERTY_TYPE_CALURI),
   (.Categories, PROPERTY_TYPE_CATEGORIES),
   (.ClientPidMap, PROPERTY_TYPE_CLIENTPIDMAP),
   (.ContactUri, PROPERTY_TYPE_CONTACTURI),
   (.DeathDate, PROPERTY_TYPE_DEATHDATE),
   (.DeathPlace, PROPERTY_TYPE_DEATHPLACE),
   (.Email, PROPERTY_TYPE_EMAIL),
   (.Expertise, PROPERTY_TYPE_EXPERTISE),
   (.FbUrl, PROPERTY_TYPE_FBURL),
   (.Fn, PROPERTY_TYPE_FN),
   (.Gender, PROPERTY_TYPE_GENDER),
   (.Geo, PROPERTY_TYPE_GEO),
   (.Hobby, PROPERTY_TYPE_HOBBY),
   (.Impp, PROPERTY_TYPE_IMPP),
   (.Interest, PROPERTY_TYPE_INTEREST),
   (.Key, PROPERTY_TYPE_KEY),
   (.Kind, PROPERTY_TYPE_KIND),
   (.Lang, PROPERTY_TYPE_LANG),
   (.Logo, PROPERTY_TYPE_LOGO),
   (.Member, PROPERTY_TYPE_MEMBER),
   (.NickName, PROPERTY_TYPE_NICKNAME),
   (.Note, PROPERTY_TYPE_NOTE),
   (.N, PROPERTY_TYPE_N),
   (.OrgDirectory, PROPERTY_TYPE_ORGDIRECTORY),
   (.Org, PROPERTY_TYPE_ORG),
   (.Photo, PROPERTY_TYPE_PHOTO),
   (.ProdId, PROPERTY_TYPE_PRODID),
   (.Related, PROPERTY_TYPE_RELATED),
   (.Rev, PROPERTY_TYPE_REV),
   (.Role, PROPERTY_TYPE_ROLE),
   (.Sound, PROPERTY_TYPE_SOUND),
   (.Source, PROPERTY_TYPE_SOURCE),
   (.Tel, PROPERTY_TYPE_TEL),
   (.Title, PROPERTY_TYPE_TITLE),
   (.Tz, PROPERTY_TYPE_TZ),
   (.Uid, PROPERTY_TYPE_UID),
   (.Url, PROPERTY_TYPE_URL),
   (.Version, PROPERTY_TYPE_VERSION),
   (.Xml, PROPERTY_TYPE_XML)]

/-- Modelled from the spec: `keyword_of(type)`, the Display rendering of a
property type — total, pure, always the canonical uppercase keyword, read
off the shared table. -/
def PropertyType.toString (t : PropertyType) : String :=
  match propertyTypeTable.find? (fun p => p.1 = t) with
  | some p => p.2
  | none => ""

/-- Modelled from the spec: `resolve(keyword)` of the Type Registry
(`PropertyType::try_from`), matching canonical keywords case-insensitively
against the shared table and failing with `UnknownPropertyType` on the
original keyword text otherwise. -/
def PropertyType.tryFrom (s : String) : Except VcardError PropertyType :=
  match propertyTypeTable.find? (fun p => p.2 = toUpperAscii s) with
  | some p => .ok p.1
  | none => .error (.UnknownPropertyType s)

/-- Modelled from the spec: a parameter is an opaque `KEY=VALUE`-shaped
item that renders back to its own text. -/
structure Parameter where
  text : String
deriving DecidableEq

/-- Modelled from the spec: a parameter's Display rendering is its text. -/
def Parameter.toString (p : Parameter) : String :=
  p.text

/-- Modelled from the spec: `Parameter::build_parameters` — given the
resolved type and the optional raw parameter text, returns the ordered
parameter list: no text yields the empty list; otherwise the text's
`;`-separated segments in order, duplicates preserved.  The per-type
validation is opaque in the spec and is modelled as accepting. -/
def Parameter.build_parameters (_t : PropertyType) (pp : Option String) :
    Except VcardError (List Parameter) :=
  match pp with
  | none => .ok []
  | some s => .ok ((splitAll ';' s).map Parameter.mk)

/-- Modelled from the spec: the typed value of the missing `values` module,
an opaque type-dependent payload whose internal type matches the owning
property's type tag and which renders back to raw text. -/
structure Value where
  valueType : PropertyType
  text : String
deriving DecidableEq

/-- Modelled from the spec: the raw text that a type's default value
renders to; `from_type(Version)` must serialize to `"VERSION:4.0"`, other
defaults carry no input text. -/
def Value.defaultText : PropertyType → String
  | .Version => "4.0"
  | _ => ""

/-- Modelled from the spec: `Value::from(&PropertyType)` — the default
value of a type, built from the type alone. -/
def Value.fromType (t : PropertyType) : Value :=
  ⟨t, Value.defaultText t⟩

/-- Modelled from the spec: `Value::try_from((&type, &parameters, raw))` —
builds the typed value for the resolved type from the raw value text; the
value grammar is opaque to this core, so the model stores the raw text,
which is what the value renders back to. -/
def Value.tryFrom (t : PropertyType) (_ps : List Parameter) (raw : String) :
    Except VcardError Value :=
  .ok ⟨t, raw⟩

/-- Modelled from the spec: a value's Display rendering is its raw text. -/
def Value.toString (v : Value) : String :=
  v.text

/-- The property record: identity token, type tag, typed value, ordered
parameter list (`struct Property`, uuids modelled as naturals). -/
structure Property where
  uuid : Nat
  property_type : PropertyType
  property_value : Value
  property_parameters : List Parameter
deriving DecidableEq

/-- `Property::get_uuid`. -/
def Property.get_uuid (p : Property) : Nat :=
  p.uuid

/-- `Property::get_type`. -/
def Property.get_type (p : Property) : PropertyType :=
  p.property_type

/-- `Property::get_value`. -/
def Property.get_value (p : Property) : Value :=
  p.property_value

/-- `Property::get_parameters`. -/
def Property.get_parameters (p : Property) : List Parameter :=
  p.property_parameters

/-- `Property::parameters_to_string`: the parameters' renderings joined
with `";"`. -/
def Property.parameters_to_string (p : Property) : String :=
  joinSemicolon (p.property_parameters.map Parameter.toString)

/-- The derived `Clone` of `Property`: a field-wise copy. -/
def Property.clone (p : Property) : Property :=
  ⟨p.uuid, p.property_type, p.property_value, p.property_parameters⟩

/-- `From<PropertyType> for Property`: default value, no parameters, fresh
identity (the freshly generated uuid is the explicit `fresh` argument). -/
def Property.fromType (t : PropertyType) (fresh : Nat) : Property :=
  ⟨fresh, t, Value.fromType t, []⟩

/-- The line-splitting match of `TryFrom<(&str, Option<Uuid>)>`: split at
the first `:` (else `PropertyMalformedString` on the stripped line), then
split the head at its first `;` into keyword and optional parameter
text. -/
def splitPropertyLine (str : String) :
    Except VcardError (String × String × Option String) :=
  match splitOnce ':' str with
  | none => .error (.PropertyMalformedString str)
  | some (rest, property_values) =>
      match splitOnce ';' rest with
      | none => .ok (rest, property_values, none)
      | some (property_type, property_parameters) =>
          .ok (property_type, property_values, some property_parameters)

/-- `TryFrom<(&str, Option<Uuid>)> for Property`: strip CR/LF, split the
line, resolve the keyword, build the parameters, build the value, and
assemble with the supplied identity or else the fresh one. -/
def Property.tryFromLine (str : String) (uuid : Option Nat) (fresh : Nat) :
    Except VcardError Property :=
  match splitPropertyLine (stripCRLF str) with
  | .error e => .error e
  | .ok (pt, pv, pp) =>
      match PropertyType.tryFrom pt with
      | .error e => .error e
      | .ok property_type =>
          match Parameter.build_parameters property_type pp with
          | .error e => .error e
          | .ok property_parameters =>
              match Value.tryFrom property_type property_parameters pv with
              | .error e => .error e
              | .ok property_value =>
                  .ok ⟨uuid.getD fresh, property_type, property_value,
                       property_parameters⟩

/-- `TryFrom<(&PropertyType, &str, Option<Uuid>)> for Property`:
synthesizes `"<keyword>:<raw_value_only>"` from the type's keyword
constant and feeds it through the same line parser. -/
def Property.tryFromTyped (property_type : PropertyType) (str : String)
    (uuid : Option Nat) (fresh : Nat) : Except VcardError Property :=
  let str :=
    match property_type with
    | .Adr => PROPERTY_TYPE_ADR ++ ":" ++ str
    | .Anniversary => PROPERTY_TYPE_ANNIVERSARY ++ ":" ++ str
    | .BDay => PROPERTY_TYPE_BDAY ++ ":" ++ str
    | .BirthPlace => PROPERTY_TYPE_BIRTHPLACE ++ ":" ++ str
    | .CalAdrUri => PROPERTY_TYPE_CALADRURI ++ ":" ++ str
    | .CalUri => PROPERTY_TYPE_CALURI ++ ":" ++ str
    | .Categories => PROPERTY_TYPE_CATEGORIES ++ ":" ++ str
    | .ClientPidMap => PROPERTY_TYPE_CLIENTPIDMAP ++ ":" ++ str
    | .ContactUri => PROPERTY_TYPE_CONTACTURI ++ ":" ++ str
    | .DeathDate => PROPERTY_TYPE_DEATHDATE ++ ":" ++ str
    | .DeathPlace => PROPERTY_TYPE_DEATHPLACE ++ ":" ++ str
    | .Email => PROPERTY_TYPE_EMAIL ++ ":" ++ str
    | .Expertise => PROPERTY_TYPE_EXPERTISE ++ ":" ++ str
    | .FbUrl => PROPERTY_TYPE_FBURL ++ ":" ++ str
    | .Fn => PROPERTY_TYPE_FN ++ ":" ++ str
    | .Gender => PROPERTY_TYPE_GENDER ++ ":" ++ str
    | .Geo => PROPERTY_TYPE_GEO ++ ":" ++ str
    | .Hobby => PROPERTY_TYPE_HOBBY ++ ":" ++ str
    | .Impp => PROPERTY_TYPE_IMPP ++ ":" ++ str
    | .Interest => PROPERTY_TYPE_INTEREST ++ ":" ++ str
    | .Key => PROPERTY_TYPE_KEY ++ ":" ++ str
    | .Kind => PROPERTY_TYPE_KIND ++ ":" ++ str
    | .Lang => PROPERTY_TYPE_LANG ++ ":" ++ str
    | .Logo => PROPERTY_TYPE_LOGO ++ ":" ++ str
    | .Member => PROPERTY_TYPE_MEMBER ++ ":" ++ str
    | .NickName => PROPERTY_TYPE_NICKNAME ++ ":" ++ str
    | .Note => PROPERTY_TYPE_NOTE ++ ":" ++ str
    | .N => PROPERTY_TYPE_N ++ ":" ++ str
    | .OrgDirectory => PROPERTY_TYPE_ORGDIRECTORY ++ ":" ++ str
    | .Org => PROPERTY_TYPE_ORG ++ ":" ++ str
    | .Photo => PROPERTY_TYPE_PHOTO ++ ":" ++ str
    | .ProdId => PROPERTY_TYPE_PRODID ++ ":" ++ str
    | .Related => PROPERTY_TYPE_RELATED ++ ":" ++ str
    | .Rev => PROPERTY_TYPE_REV ++ ":" ++ str
    | .Role => PROPERTY_TYPE_ROLE ++ ":" ++ str
    | .Sound => PROPERTY_TYPE_SOUND ++ ":" ++ str
    | .Source => PROPERTY_TYPE_SOURCE ++ ":" ++ str
    | .Tel => PROPERTY_TYPE_TEL ++ ":" ++ str
    | .Title => PROPERTY_TYPE_TITLE ++ ":" ++ str
    | .Tz => PROPERTY_TYPE_TZ ++ ":" ++ str
    | .Uid => PROPERTY_TYPE_UID ++ ":" ++ str
    | .Url => PROPERTY_TYPE_URL ++ ":" ++ str
    | .Version => PROPERTY_TYPE_VERSION ++ ":" ++ str
    | .Xml => PROPERTY_TYPE_XML ++ ":" ++ str
  Property.tryFromLine str uuid fresh

/-- `Display for Property` (serialization): keyword, `;`-joined parameters
when non-empty, `:`, value text. -/
def Property.toString (p : Property) : String :=
  if ¬ p.property_parameters.isEmpty then
    PropertyType.toString p.property_type ++ ";" ++ p.parameters_to_string
      ++ ":" ++ Value.toString p.property_value
  else
    PropertyType.toString p.property_type ++ ":" ++ Value.toString p.property_value

/-- Equality of properties up to the identity token: equal type, value and
parameter list. -/
def eqModuloIdentity (p q : Property) : Prop :=
  p.property_type = q.property_type ∧ p.property_value = q.property_value ∧
    p.property_parameters = q.property_parameters

/-- Decidable equality for parse results. -/
def exceptDecEq {ε α : Type} [DecidableEq ε] [DecidableEq α] :
    DecidableEq (Except ε α) := fun a b =>
  match a, b with
  | .ok x, .ok y =>
      if h : x = y then .isTrue (congrArg Except.ok h)
      else .isFalse (by intro he; cases he; exact h rfl)
  | .ok _, .error _ => .isFalse (by intro he; cases he)
  | .error _, .ok _ => .isFalse (by intro he; cases he)
  | .error x, .error y =>
      if h : x = y then .isTrue (congrArg Except.error h)
      else .isFalse (by intro he; cases he; exact h rfl)

instance : DecidableEq (Except VcardError Property) := exceptDecEq

theorem dataAppend (s t : String) : (s ++ t).data = s.data ++ t.data := rfl

theorem splitOnceChars_of_not_mem (sep : Char) (l : List Char) (h : sep ∉ l) :
    splitOnceChars sep l = none := by
  induction l with
  | nil => rfl
  | cons c cs ih =>
      simp only [List.mem_cons, not_or] at h
      simp only [splitOnceChars]
      rw [if_neg (fun hc => h.1 hc.symm), ih h.2]

theorem splitOnceChars_append (sep : Char) (l₁ l₂ : List Char)
    (h : sep ∉ l₁) : splitOnceChars sep (l₁ ++ sep :: l₂) = some (l₁, l₂) := by
  induction l₁ with
  | nil => simp [splitOnceChars]
  | cons c cs ih =>
      simp only [List.mem_cons, not_or] at h
      simp only [List.cons_append, splitOnceChars]
      rw [if_neg (fun hc => h.1 hc.symm)]
      simp only [List.append_eq]
      rw [ih h.2]

theorem splitOnce_eq_none (sep : Char) (s : String) (h : sep ∉ s.data) :
    splitOnce sep s = none := by
  simp [splitOnce, splitOnceChars_of_not_mem sep s.data h]

theorem splitOnce_colon_append (h v : String) (hc : ':' ∉ h.data) :
    splitOnce ':' (h ++ ":" ++ v) = some (h, v) := by
  have hd : (h ++ ":" ++ v).data = h.data ++ ':' :: v.data := by
    rw [dataAppend, dataAppend]
    simp
  rw [splitOnce, hd, splitOnceChars_append _ _ _ hc]

theorem removeChar_of_not_mem (c : Char) (s : String) (h : c ∉ s.data) :
    removeChar c s = s := by
  unfold removeChar
  have hf : s.data.filter (fun a => a != c) = s.data := by
    apply List.filter_eq_self.mpr
    intro a ha
    simp only [bne_iff_ne, ne_eq]
    exact fun he => h (he ▸ ha)
  rw [hf]

theorem stripCRLF_of_not_mem (s : String) (hr : '\r' ∉ s.data)
    (hn : '\n' ∉ s.data) : stripCRLF s = s := by
  unfold stripCRLF
  rw [removeChar_of_not_mem '\r' s hr, removeChar_of_not_mem '\n' s hn]

theorem tryFromLine_ok_elim {s : String} {u : Option Nat} {f : Nat}
    {p : Property} (h : Property.tryFromLine s u f = .ok p) :
    ∃ pt pv pp t ps v,
      splitPropertyLine (stripCRLF s) = .ok (pt, pv, pp) ∧
      PropertyType.tryFrom pt = .ok t ∧
      Parameter.build_parameters t pp = .ok ps ∧
      Value.tryFrom t ps pv = .ok v ∧
      p = ⟨u.getD f, t, v, ps⟩ := by
  unfold Property.tryFromLine at h
  split at h
  · exact absurd h (by simp)
  · rename_i pt pv pp heq
    split at h
    · exact absurd h (by simp)
    · rename_i t ht
      split at h
      · exact absurd h (by simp)
      · rename_i ps hps
        split at h
        · exact absurd h (by simp)
        · rename_i v hv
          cases h
          exact ⟨pt, pv, pp, t, ps, v, heq, ht, hps, hv, rfl⟩

/-- C1: Parsing the ADR line with two `TYPE=` parameters and no supplied
identity succeeds and yields a property with type `Adr`, parameter list
exactly `[TYPE=HOME, TYPE=pref]` in that order (duplicate keys preserved,
insertion order preserved), and the structured value text unchanged; and
serializing that property reproduces the identical input line. -/
theorem adr_line_parse_and_serialize : ∀ fresh : Nat,
    Property.tryFromLine
      "ADR;TYPE=HOME;TYPE=pref:;;1600 Pennsylvania Avenue NW;Washington;DC;20500;United States"
      none fresh =
      .ok ⟨fresh, .Adr,
        ⟨.Adr, ";;1600 Pennsylvania Avenue NW;Washington;DC;20500;United States"⟩,
        [⟨"TYPE=HOME"⟩, ⟨"TYPE=pref"⟩]⟩ ∧
    Property.toString
      ⟨fresh, .Adr,
        ⟨.Adr, ";;1600 Pennsylvania Avenue NW;Washington;DC;20500;United States"⟩,
        [⟨"TYPE=HOME"⟩, ⟨"TYPE=pref"⟩]⟩ =
      "ADR;TYPE=HOME;TYPE=pref:;;1600 Pennsylvania Avenue NW;Washington;DC;20500;United States" :=
  fun _ => ⟨rfl, rfl⟩

/-- C2: Only the first `:` in the line separates head from value text and
only the first `;` before it separates keyword from parameter text, so
`:` and `;` inside the value text are preserved intact in the parsed value
text; in particular parsing `URL:http://a.com:8080/x` keeps the value text
`http://a.com:8080/x` unchanged. -/
theorem first_boundary_splits :
    (∀ h v : String, ':' ∉ h.data → '\r' ∉ h.data → '\n' ∉ h.data →
      '\r' ∉ v.data → '\n' ∉ v.data →
      splitPropertyLine (stripCRLF (h ++ ":" ++ v)) =
        .ok (match splitOnce ';' h with
             | none => (h, v, none)
             | some kp => (kp.1, v, some kp.2))) ∧
    (∀ (s : String) (u : Option Nat) (f : Nat) (p : Property),
      Property.tryFromLine s u f = .ok p →
      ∃ pt pv pp, splitPropertyLine (stripCRLF s) = .ok (pt, pv, pp) ∧
        p.property_value.text = pv) ∧
    (∀ (u : Option Nat) (f : Nat),
      Property.tryFromLine "URL:http://a.com:8080/x" u f =
        .ok ⟨u.getD f, .Url, ⟨.Url, "http://a.com:8080/x"⟩, []⟩) := by
  refine ⟨?_, ?_, fun u f => rfl⟩
  · intro h v hc hr hn vr vn
    have hdata : (h ++ ":" ++ v).data = h.data ++ ':' :: v.data := by
      rw [dataAppend, dataAppend]
      simp
    have hs : stripCRLF (h ++ ":" ++ v) = h ++ ":" ++ v := by
      apply stripCRLF_of_not_mem
      · rw [hdata]
        simp only [List.mem_append, List.mem_cons]
        push_neg
        exact ⟨hr, by decide, vr⟩
      · rw [hdata]
        simp only [List.mem_append, List.mem_cons]
        push_neg
        exact ⟨hn, by decide, vn⟩
    rw [hs]
    unfold splitPropertyLine
    rw [splitOnce_colon_append h v hc]
    rcases hsp : splitOnce ';' h with _ | ⟨k, pp⟩ <;> simp [hsp]
  · intro s u f p hp
    obtain ⟨pt, pv, pp, t, ps, v, he, ht, hps, hv, hpe⟩ := tryFromLine_ok_elim hp
    refine ⟨pt, pv, pp, he, ?_⟩
    have hv' : v = ⟨t, pv⟩ := by
      simp only [Value.tryFrom, Except.ok.injEq] at hv
      exact hv.symm
    subst hpe
    rw [hv']

/-- Witness for C2 at head `URL` and value `http://a.com:8080/x`. -/
theorem first_boundary_splits_witness :
    splitPropertyLine (stripCRLF ("URL" ++ ":" ++ "http://a.com:8080/x")) =
      .ok (match splitOnce ';' "URL" with
           | none => ("URL", "http://a.com:8080/x", none)
           | some kp => (kp.1, "http://a.com:8080/x", some kp.2)) :=
  first_boundary_splits.1 "URL" "http://a.com:8080/x" (by decide) (by decide)
    (by decide) (by decide) (by decide)

/-- C3: The typed entry point synthesizes `"<keyword>:<value>"` and feeds
it through the one line-parsing algorithm, so for every type, raw value
text and identity arguments it returns exactly the same result as parsing
the synthesized line. -/
theorem typed_entry_equals_line_parse :
    ∀ (t : PropertyType) (v : String) (u : Option Nat) (f : Nat),
      Property.tryFromTyped t v u f =
        Property.tryFromLine (PropertyType.toString t ++ ":" ++ v) u f := by
  intro t v u f
  cases t <;> rfl

/-- C4: For every supported property type, parsing the serialization of
the default property built from that type succeeds and the result equals
that default property modulo identity. -/
theorem fromType_serialize_parse_roundtrip :
    ∀ (t : PropertyType) (f g : Nat),
      ∃ p, Property.tryFromLine (Property.toString (Property.fromType t f))
          none g = .ok p ∧
        eqModuloIdentity p (Property.fromType t f) := by
  intro t f g
  cases t <;> exact ⟨_, rfl, rfl, rfl, rfl⟩

/-- C5: Keyword matching is case-insensitive while serialization emits the
canonical uppercase keyword: `fn:Jane` and `FN:Jane` both parse, the
results are equal modulo identity, and both serialize to `"FN:Jane"`. -/
theorem keyword_case_insensitive :
    ∀ (u₁ : Option Nat) (f₁ : Nat) (u₂ : Option Nat) (f₂ : Nat),
      ∃ p q,
        Property.tryFromLine "fn:Jane" u₁ f₁ = .ok p ∧
        Property.tryFromLine "FN:Jane" u₂ f₂ = .ok q ∧
        eqModuloIdentity p q ∧
        Property.toString p = "FN:Jane" ∧ Property.toString q = "FN:Jane" := by
  intro u₁ f₁ u₂ f₂
  exact ⟨⟨u₁.getD f₁, .Fn, ⟨.Fn, "Jane"⟩, []⟩,
    ⟨u₂.getD f₂, .Fn, ⟨.Fn, "Jane"⟩, []⟩,
    rfl, rfl, ⟨rfl, rfl, rfl⟩, rfl, rfl⟩

/-- C6: Serialization returns `"<keyword>;<param1>;...:<value-text>"` when
the parameter list is non-empty and `"<keyword>:<value-text>"` otherwise,
the parameters joined by `;` in stored order, each segment taken from the
registry's and subsystems' own rendering. -/
theorem serialize_shape : ∀ p : Property,
    (p.property_parameters ≠ [] →
      Property.toString p =
        PropertyType.toString p.property_type ++ ";" ++ p.parameters_to_string
          ++ ":" ++ Value.toString p.property_value) ∧
    (p.property_parameters = [] →
      Property.toString p =
        PropertyType.toString p.property_type ++ ":" ++
          Value.toString p.property_value) ∧
    Property.toString p =
      joinSemicolon (PropertyType.toString p.property_type ::
          p.property_parameters.map Parameter.toString)
        ++ ":" ++ Value.toString p.property_value := by
  intro p
  obtain ⟨u, t, v, ps⟩ := p
  cases ps with
  | nil => exact ⟨fun hne => absurd rfl hne, fun _ => rfl, rfl⟩
  | cons a l => exact ⟨fun _ => rfl, fun he => List.noConfusion he, rfl⟩

/-- Witness for C6 at a one-parameter property and a no-parameter one. -/
theorem serialize_shape_witness :
    Property.toString ⟨0, .Adr, ⟨.Adr, "x"⟩, [⟨"TYPE=HOME"⟩]⟩ =
      PropertyType.toString .Adr ++ ";" ++
        Property.parameters_to_string ⟨0, .Adr, ⟨.Adr, "x"⟩, [⟨"TYPE=HOME"⟩]⟩
        ++ ":" ++ Value.toString ⟨.Adr, "x"⟩ ∧
    Property.toString ⟨1, .Fn, ⟨.Fn, "Jane"⟩, []⟩ =
      PropertyType.toString .Fn ++ ":" ++ Value.toString ⟨.Fn, "Jane"⟩ :=
  ⟨(serialize_shape ⟨0, .Adr, ⟨.Adr, "x"⟩, [⟨"TYPE=HOME"⟩]⟩).1 (by decide),
   (serialize_shape ⟨1, .Fn, ⟨.Fn, "Jane"⟩, []⟩).2.1 rfl⟩

/-- C7 (amended): a line with no `:` after CR/LF stripping fails with
`PropertyMalformedString` carrying the CR/LF-stripped line (not the
original line), and no property is produced; in particular parsing `"FN"`
fails that way. -/
theorem no_colon_malformed_stripped :
    (∀ (s : String) (u : Option Nat) (f : Nat), ':' ∉ (stripCRLF s).data →
      Property.tryFromLine s u f =
        .error (.PropertyMalformedString (stripCRLF s))) ∧
    (∀ (u : Option Nat) (f : Nat),
      Property.tryFromLine "FN" u f =
        .error (.PropertyMalformedString "FN")) := by
  constructor
  · intro s u f hc
    simp only [Property.tryFromLine, splitPropertyLine,
      splitOnce_eq_none ':' (stripCRLF s) hc]
  · intro u f
    rfl

/-- Counterexample for C7 as stated: on input `"FN\n"` (no `:` after
stripping) the error carries the stripped line `"FN"`, not the original
line `"FN\n"`. -/
theorem no_colon_original_line_cex :
    Property.tryFromLine "FN\n" none 0 ≠
      .error (.PropertyMalformedString "FN\n") ∧
    Property.tryFromLine "FN\n" none 0 =
      .error (.PropertyMalformedString "FN") :=
  ⟨by decide, rfl⟩

/-- Witness for C7 amended at the input `"FN"`. -/
theorem no_colon_malformed_witness :
    Property.tryFromLine "FN" none 0 =
      .error (.PropertyMalformedString (stripCRLF "FN")) :=
  no_colon_malformed_stripped.1 "FN" none 0 (by decide)

/-- C8: `XYZ:value` fails with `UnknownPropertyType` despite containing a
colon, and a keyword-resolution failure is returned to the caller
unmodified with no property produced. -/
theorem substep_error_propagation :
    (∀ (u : Option Nat) (f : Nat),
      Property.tryFromLine "XYZ:value" u f =
        .error (.UnknownPropertyType "XYZ")) ∧
    (∀ (s : String) (u : Option Nat) (f : Nat) (e : VcardError)
        (pt pv : String) (pp : Option String),
      splitPropertyLine (stripCRLF s) = .ok (pt, pv, pp) →
      PropertyType.tryFrom pt = .error e →
      Property.tryFromLine s u f = .error e) := by
  constructor
  · intro u f
    rfl
  · intro s u f e pt pv pp hsplit ht
    simp only [Property.tryFromLine, hsplit, ht]

/-- Witness for C8 at the input `"XYZ:value"`. -/
theorem substep_error_propagation_witness :
    Property.tryFromLine "XYZ:value" none 0 =
      .error (.UnknownPropertyType "XYZ") :=
  substep_error_propagation.2 "XYZ:value" none 0 (.UnknownPropertyType "XYZ")
    "XYZ" "value" none rfl rfl

/-- C9: The parsed property's identity is the supplied one when given and
the freshly generated one otherwise: two parses of the same text with
distinct fresh tokens and no supplied identity differ in identity but are
equal modulo identity, while two parses with the same supplied identity
are fully equal. -/
theorem identity_assignment :
    (∀ (s : String) (f₁ f₂ : Nat) (p₁ p₂ : Property),
      Property.tryFromLine s none f₁ = .ok p₁ →
      Property.tryFromLine s none f₂ = .ok p₂ →
      f₁ ≠ f₂ → p₁.uuid ≠ p₂.uuid ∧ eqModuloIdentity p₁ p₂) ∧
    (∀ (s : String) (u : Nat) (f₁ f₂ : Nat) (p₁ p₂ : Property),
      Property.tryFromLine s (some u) f₁ = .ok p₁ →
      Property.tryFromLine s (some u) f₂ = .ok p₂ →
      p₁ = p₂) := by
  constructor
  · intro s f₁ f₂ p₁ p₂ h₁ h₂ hf
    obtain ⟨pt₁, pv₁, pp₁, t₁, ps₁, v₁, e₁, a₁, b₁, c₁, r₁⟩ :=
      tryFromLine_ok_elim h₁
    obtain ⟨pt₂, pv₂, pp₂, t₂, ps₂, v₂, e₂, a₂, b₂, c₂, r₂⟩ :=
      tryFromLine_ok_elim h₂
    rw [e₁] at e₂
    injection e₂ with q₁
    injection q₁ with q₂ q₃
    injection q₃ with q₄ q₅
    subst q₂
    subst q₄
    subst q₅
    rw [a₁] at a₂
    injection a₂ with q₆
    subst q₆
    rw [b₁] at b₂
    injection b₂ with q₇
    subst q₇
    rw [c₁] at c₂
    injection c₂ with q₈
    subst q₈
    subst r₁
    subst r₂
    exact ⟨hf, rfl, rfl, rfl⟩
  · intro s u f₁ f₂ p₁ p₂ h₁ h₂
    obtain ⟨pt₁, pv₁, pp₁, t₁, ps₁, v₁, e₁, a₁, b₁, c₁, r₁⟩ :=
      tryFromLine_ok_elim h₁
    obtain ⟨pt₂, pv₂, pp₂, t₂, ps₂, v₂, e₂, a₂, b₂, c₂, r₂⟩ :=
      tryFromLine_ok_elim h₂
    rw [e₁] at e₂
    injection e₂ with q₁
    injection q₁ with q₂ q₃
    injection q₃ with q₄ q₅
    subst q₂
    subst q₄
    subst q₅
    rw [a₁] at a₂
    injection a₂ with q₆
    subst q₆
    rw [b₁] at b₂
    injection b₂ with q₇
    subst q₇
    rw [c₁] at c₂
    injection c₂ with q₈
    subst q₈
    subst r₁
    subst r₂
    rfl

/-- Witness for C9 at the line `"FN:Jane"`, fresh tokens 0 and 1, and
supplied identity 7. -/
theorem identity_assignment_witness :
    ((⟨0, .Fn, ⟨.Fn, "Jane"⟩, []⟩ : Property).uuid ≠
        (⟨1, .Fn, ⟨.Fn, "Jane"⟩, []⟩ : Property).uuid ∧
      eqModuloIdentity ⟨0, .Fn, ⟨.Fn, "Jane"⟩, []⟩
        ⟨1, .Fn, ⟨.Fn, "Jane"⟩, []⟩) ∧
    (⟨7, .Fn, ⟨.Fn, "Jane"⟩, []⟩ : Property) =
      ⟨7, .Fn, ⟨.Fn, "Jane"⟩, []⟩ :=
  ⟨identity_assignment.1 "FN:Jane" 0 1 _ _ rfl rfl (by decide),
   identity_assignment.2 "FN:Jane" 7 0 1 _ _ rfl rfl⟩

/-- C10: Cloning a property is a field-wise copy yielding a record fully
equal to the original, including the identity token; a fresh identity is
obtained only through the constructors (`from_type`, or parsing without a
supplied identity), whose identity is exactly the fresh token. -/
theorem clone_fieldwise_copy :
    (∀ p : Property, Property.clone p = p ∧
      (Property.clone p).get_uuid = p.get_uuid) ∧
    (∀ (t : PropertyType) (f : Nat), (Property.fromType t f).get_uuid = f) ∧
    (∀ (s : String) (f : Nat) (p : Property),
      Property.tryFromLine s none f = .ok p → p.get_uuid = f) := by
  refine ⟨fun p => ⟨rfl, rfl⟩, fun t f => rfl, ?_⟩
  intro s f p hp
  obtain ⟨pt, pv, pp, t, ps, v, he, ht, hps, hv, hpe⟩ := tryFromLine_ok_elim hp
  subst hpe
  rfl

/-- Witness for C10 at the line `"FN:Jane"` and fresh token 0. -/
theorem clone_fieldwise_copy_witness :
    (⟨0, .Fn, ⟨.Fn, "Jane"⟩, []⟩ : Property).get_uuid = 0 :=
  clone_fieldwise_copy.2.2 "FN:Jane" 0 ⟨0, .Fn, ⟨.Fn, "Jane"⟩, []⟩ rfl

end Vcard
